import Mathlib

/-!
Shallow embedding of the ddns-updater daemon (src/main.rs).

Pure configuration logic (`Config.is_valid`, `Config.normalize`) is embedded
directly.  Effectful functions are embedded as state transformers over an
explicit environment: `load_config` takes the result of the file read and the
JSON parse as inputs; `check_and_update_ip` takes an `Env` recording the
outcome of the connectivity probe, the public-IP discovery, the HTTP layer of
the DDNS update call, and the current wall-clock time.  Task spawning in
`main` and `watch_config` is embedded as lists of spawned tasks.
-/

namespace DdnsUpdater

/-- The `Config` struct (main.rs lines 12-19): user, pass, ddns credentials
plus a polling interval in seconds (`u64` in the source, `Nat` here; only
the comparison with 60 and the constant 300 matter). -/
structure Config where
  user : String
  pass : String
  ddns : String
  interval : Nat
  deriving DecidableEq, Repr

/-- `default_interval` (main.rs lines 21-23). -/
def default_interval : Nat := 300

/-- `Config::is_valid` (main.rs lines 26-28). -/
def Config.is_valid (c : Config) : Bool :=
  !c.user.isEmpty && !c.pass.isEmpty && !c.ddns.isEmpty

/-- `Config::normalize` (main.rs lines 30-34): an interval below 60 is
replaced by 300; otherwise the config is left as is. -/
def Config.normalize (c : Config) : Config :=
  if c.interval < 60 then { c with interval := 300 } else c

/-- The mutable fields of `AppState` (main.rs lines 37-42); the HTTP client
is an external collaborator and is part of `Env` instead.  Timestamps
(`DateTime<Local>`) are embedded as `Nat`. -/
structure AppState where
  config : Option Config
  ip_cache : Option String
  last_change_time : Option Nat
  deriving DecidableEq, Repr

/-- `AppState::new` (main.rs lines 44-56): all three fields start out `None`. -/
def AppState.new : AppState :=
  { config := none, ip_cache := none, last_change_time := none }

/-- `ConfigLoadResult` (main.rs lines 58-63). -/
inductive ConfigLoadResult where
  | Success
  | InvalidConfig
  | FileError
  | NoChange
  deriving DecidableEq, Repr

/-- The diagnostic lines logged when a parsed config fails validation
(main.rs lines 97-122): user and ddns are echoed (or marked empty), while
the password is reported only as set / empty, never echoed. -/
def invalid_config_diagnostic (c : Config) : List String :=
  [ "✗ Invalid config: user, pass, or ddns is missing!"
  , "Current config:"
  , "  - user: \x27" ++ (if c.user.isEmpty then "<empty>" else c.user) ++ "\x27"
  , "  - pass: \x27" ++ (if c.pass.isEmpty then "<empty>" else "<set>") ++ "\x27"
  , "  - ddns: \x27" ++ (if c.ddns.isEmpty then "<empty>" else c.ddns) ++ "\x27" ]

/-- Result of one invocation of the loader: the returned
`ConfigLoadResult`, the app state after the call, and the log lines
emitted on the error/success paths. -/
structure LoadOutput where
  result : ConfigLoadResult
  state : AppState
  logs : List String
  deriving DecidableEq, Repr

/-- `load_config` (main.rs lines 90-156).  The file read is given as
`readResult` (the `fs::read_to_string` outcome) and JSON deserialization as
the function `parse` (the `serde_json::from_str` outcome on the contents);
both are external effects.  The state is threaded explicitly: every branch
returns the resulting `AppState`. -/
def load_config (readResult : Except String String)
    (parse : String → Except String Config)
    (path : String) (st : AppState) (first_load : Bool) : LoadOutput :=
  match readResult with
  | Except.ok contents =>
    match parse contents with
    | Except.ok cfg =>
      let new_config := cfg.normalize
      if !new_config.is_valid then
        { result := ConfigLoadResult.InvalidConfig, state := st
        , logs := invalid_config_diagnostic new_config }
      else if first_load then
        { result := ConfigLoadResult.Success
        , state := { st with config := some new_config }
        , logs := ["✓ Config loaded successfully"] }
      else if st.config ≠ some new_config then
        { result := ConfigLoadResult.Success
        , state := { st with config := some new_config }
        , logs := ["✓ Config changed and reloaded"] }
      else
        { result := ConfigLoadResult.NoChange, state := st, logs := [] }
    | Except.error e =>
      { result := ConfigLoadResult.InvalidConfig, state := st
      , logs := [ "✗ JSON Parse Error: " ++ e
                , "File: " ++ path
                , "Please check your JSON syntax (commas, quotes, brackets)" ] }
  | Except.error e =>
    { result := ConfigLoadResult.FileError, state := st
    , logs := ["✗ File Read Error: " ++ e, "File: " ++ path] }

/-- Outcome of one HTTP GET as seen by the code: either the send itself
failed (timeout / connect / other, already rendered to a message by the
`map_err` closures) or a response with a status code and canonical reason
came back. -/
inductive HttpResult where
  | sendFailure (msg : String)
  | response (status : Nat) (reason : String)
  deriving DecidableEq, Repr

/-- `reqwest::StatusCode::is_success`: 2xx. -/
def statusIsSuccess (s : Nat) : Bool :=
  decide (200 ≤ s ∧ s ≤ 299)

/-- The DDNS update URL built in `update_ddns` (main.rs lines 362-365). -/
def update_ddns_url (c : Config) (ip : String) : String :=
  "https://" ++ c.user ++ ":" ++ c.pass ++ "@" ++ c.ddns ++ "?myip=" ++ ip

/-- External effects of one check-and-update cycle: outcome of the
connectivity probe (`check_internet_connectivity`), of the public-IP
discovery (`get_public_ip`, already trimmed), the HTTP layer answering the
GET on the DDNS update URL, and the wall clock `Local::now()`. -/
structure Env where
  connectivity : Except String Unit
  public_ip : Except String String
  http_get : String → HttpResult
  now : Nat

/-- `update_ddns` (main.rs lines 357-388): build the URL, perform the GET;
a send failure or a non-2xx status is an error, a 2xx response is `Ok`. -/
def update_ddns (env : Env) (config : Config) (ip : String) : Except String Unit :=
  match env.http_get (update_ddns_url config ip) with
  | HttpResult.sendFailure msg => Except.error msg
  | HttpResult.response status reason =>
    if statusIsSuccess status then Except.ok ()
    else Except.error ("status: " ++ toString status ++ " (" ++ reason ++ ")")

/-- Result of one check-and-update cycle: the app state afterwards and
whether `update_ddns` was invoked at all. -/
structure CycleOutput where
  state : AppState
  ddns_called : Bool
  deriving DecidableEq, Repr

/-- `check_and_update_ip` (main.rs lines 243-310): probe connectivity,
discover the public IP, return early when it equals the cached IP, fetch
the config, call `update_ddns`, and only on its success write both
`ip_cache` and `last_change_time`.  Every early return leaves the state
untouched. -/
def check_and_update_ip (st : AppState) (env : Env) : CycleOutput :=
  match env.connectivity with
  | Except.error _ => { state := st, ddns_called := false }
  | Except.ok _ =>
    match env.public_ip with
    | Except.error _ => { state := st, ddns_called := false }
    | Except.ok ip =>
      if st.ip_cache = some ip then
        { state := st, ddns_called := false }
      else
        match st.config with
        | none => { state := st, ddns_called := false }
        | some config =>
          match update_ddns env config ip with
          | Except.error _ => { state := st, ddns_called := true }
          | Except.ok _ =>
            { state :=
                { st with ip_cache := some ip, last_change_time := some env.now }
            , ddns_called := true }

/-- The long-lived / transient tasks the program spawns. -/
inductive SpawnedTask where
  | ip_checker
  | config_watcher
  | oob_check
  deriving DecidableEq, Repr

/-- Tasks spawned by `main` (main.rs lines 73-84) as a function of the
initial `load_config` result: `start_ip_checker` only on `Success`, the
config watcher unconditionally. -/
def main_spawns (firstLoad : ConfigLoadResult) : List SpawnedTask :=
  (if firstLoad = ConfigLoadResult.Success then [SpawnedTask.ip_checker] else [])
    ++ [SpawnedTask.config_watcher]

/-- Tasks spawned by `watch_config` on one modification event (main.rs
lines 186-201): an out-of-band `check_and_update_ip` on `Success`, nothing
otherwise; `start_ip_checker` is never among them. -/
def watch_event_spawns (r : ConfigLoadResult) : List SpawnedTask :=
  if r = ConfigLoadResult.Success then [SpawnedTask.oob_check] else []

/-- All tasks spawned over a process lifetime whose initial load returned
`firstLoad` and whose watcher then processed modification events with load
results `reloads`. -/
def all_spawned (firstLoad : ConfigLoadResult)
    (reloads : List ConfigLoadResult) : List SpawnedTask :=
  main_spawns firstLoad ++ (reloads.map watch_event_spawns).flatten

/-! ### Helper lemmas -/

/-- Normalization never touches the `user` field. -/
theorem normalize_user (c : Config) : c.normalize.user = c.user := by
  unfold Config.normalize
  split <;> rfl

/-- Normalization never touches the `pass` field. -/
theorem normalize_pass (c : Config) : c.normalize.pass = c.pass := by
  unfold Config.normalize
  split <;> rfl

/-- Normalization never touches the `ddns` field. -/
theorem normalize_ddns (c : Config) : c.normalize.ddns = c.ddns := by
  unfold Config.normalize
  split <;> rfl

/-- Normalization is idempotent: the interval it writes, 300, is itself
at least 60. -/
theorem normalize_idem (c : Config) : c.normalize.normalize = c.normalize := by
  unfold Config.normalize
  split <;> simp

/-- Validity is unaffected by normalization (it only reads the three
string fields). -/
theorem normalize_is_valid (c : Config) : c.normalize.is_valid = c.is_valid := by
  unfold Config.is_valid
  rw [normalize_user, normalize_pass, normalize_ddns]

/-!  ### Claims -/

/-- Claim C1: for every state in which the cached last-known IP equals the
IP returned by discovery, a check-and-update cycle makes no DDNS update
call and leaves both `last_known_ip` (`ip_cache`) and `last_change_time`
exactly as they were before the cycle. -/
theorem cycle_unchanged_ip_no_call (st : AppState) (env : Env) (ip : String)
    (hc : env.connectivity = Except.ok ())
    (hp : env.public_ip = Except.ok ip)
    (hcache : st.ip_cache = some ip) :
    (check_and_update_ip st env).ddns_called = false ∧
    (check_and_update_ip st env).state.ip_cache = st.ip_cache ∧
    (check_and_update_ip st env).state.last_change_time = st.last_change_time := by
  simp [check_and_update_ip, hc, hp, hcache]

/-- Witness for C1: a concrete state with cached IP 1.2.3.4 and a
discovery result 1.2.3.4. -/
theorem cycle_unchanged_ip_no_call_witness :
    (check_and_update_ip
      { config := some (Config.mk "u" "p" "d" 300)
      , ip_cache := some "1.2.3.4", last_change_time := some 5 }
      { connectivity := Except.ok (), public_ip := Except.ok "1.2.3.4"
      , http_get := fun _ => HttpResult.response 200 "OK", now := 7 }).ddns_called = false ∧
    (check_and_update_ip
      { config := some (Config.mk "u" "p" "d" 300)
      , ip_cache := some "1.2.3.4", last_change_time := some 5 }
      { connectivity := Except.ok (), public_ip := Except.ok "1.2.3.4"
      , http_get := fun _ => HttpResult.response 200 "OK", now := 7 }).state.ip_cache =
      some "1.2.3.4" ∧
    (check_and_update_ip
      { config := some (Config.mk "u" "p" "d" 300)
      , ip_cache := some "1.2.3.4", last_change_time := some 5 }
      { connectivity := Except.ok (), public_ip := Except.ok "1.2.3.4"
      , http_get := fun _ => HttpResult.response 200 "OK", now := 7 }).state.last_change_time =
      some 5 :=
  cycle_unchanged_ip_no_call _ _ "1.2.3.4" rfl rfl rfl

/-- Claim C2: a cycle that starts with no cached IP, discovers `ip`, and
whose DDNS update succeeds, ends with `ip_cache = some ip` and
`last_change_time` set to a timestamp no earlier than the start of the
cycle; both fields are set in the same step. -/
theorem cycle_first_success_sets_both (st : AppState) (env : Env) (ip : String)
    (cfg : Config) (cycle_start : Nat)
    (hc : env.connectivity = Except.ok ())
    (hp : env.public_ip = Except.ok ip)
    (hcache : st.ip_cache = none)
    (hcfg : st.config = some cfg)
    (hddns : update_ddns env cfg ip = Except.ok ())
    (hnow : cycle_start ≤ env.now) :
    (check_and_update_ip st env).state.ip_cache = some ip ∧
    (check_and_update_ip st env).state.last_change_time = some env.now ∧
    cycle_start ≤ env.now := by
  refine ⟨?_, ?_, hnow⟩ <;> simp [check_and_update_ip, hc, hp, hcache, hcfg, hddns]

/-- Witness for C2: cached IP `None`, discovery 5.6.7.8, HTTP 200 from the
DDNS endpoint, cycle started at time 3, clock reads 7. -/
theorem cycle_first_success_sets_both_witness :
    (check_and_update_ip
      { config := some (Config.mk "u" "p" "d" 300)
      , ip_cache := none, last_change_time := none }
      { connectivity := Except.ok (), public_ip := Except.ok "5.6.7.8"
      , http_get := fun _ => HttpResult.response 200 "OK", now := 7 }).state.ip_cache =
      some "5.6.7.8" ∧
    (check_and_update_ip
      { config := some (Config.mk "u" "p" "d" 300)
      , ip_cache := none, last_change_time := none }
      { connectivity := Except.ok (), public_ip := Except.ok "5.6.7.8"
      , http_get := fun _ => HttpResult.response 200 "OK", now := 7 }).state.last_change_time =
      some 7 ∧
    3 ≤ 7 :=
  cycle_first_success_sets_both _ _ "5.6.7.8" (Config.mk "u" "p" "d" 300) 3
    rfl rfl rfl rfl rfl (by decide)

/-- Claim C3: when the DDNS update call fails, the cycle returns with the
whole state (in particular `ip_cache` and `last_change_time`) unchanged,
and a subsequent cycle observing the same discovered IP again takes the
"different" branch and calls `update_ddns` again. -/
theorem cycle_ddns_failure_state_unchanged (st : AppState) (env : Env)
    (ip : String) (cfg : Config) (e : String)
    (hc : env.connectivity = Except.ok ())
    (hp : env.public_ip = Except.ok ip)
    (hcache : st.ip_cache ≠ some ip)
    (hcfg : st.config = some cfg)
    (hddns : update_ddns env cfg ip = Except.error e) :
    (check_and_update_ip st env).state = st ∧
    (check_and_update_ip st env).ddns_called = true ∧
    (check_and_update_ip (check_and_update_ip st env).state env).ddns_called = true := by
  have h1 : check_and_update_ip st env = { state := st, ddns_called := true } := by
    simp [check_and_update_ip, hc, hp, hcache, hcfg, hddns]
  refine ⟨by rw [h1], by rw [h1], ?_⟩
  rw [h1, h1]

/-- Witness for C3: the DDNS endpoint answers HTTP 401 Unauthorized; the
cache (holding 1.2.3.4) and the timestamp survive, and the retry calls. -/
theorem cycle_ddns_failure_state_unchanged_witness :
    (check_and_update_ip
      { config := some (Config.mk "u" "p" "d" 300)
      , ip_cache := some "1.2.3.4", last_change_time := some 5 }
      { connectivity := Except.ok (), public_ip := Except.ok "5.6.7.8"
      , http_get := fun _ => HttpResult.response 401 "Unauthorized", now := 7 }).state =
      { config := some (Config.mk "u" "p" "d" 300)
      , ip_cache := some "1.2.3.4", last_change_time := some 5 } ∧
    (check_and_update_ip
      { config := some (Config.mk "u" "p" "d" 300)
      , ip_cache := some "1.2.3.4", last_change_time := some 5 }
      { connectivity := Except.ok (), public_ip := Except.ok "5.6.7.8"
      , http_get := fun _ => HttpResult.response 401 "Unauthorized", now := 7 }).ddns_called =
      true ∧
    (check_and_update_ip
      (check_and_update_ip
        { config := some (Config.mk "u" "p" "d" 300)
        , ip_cache := some "1.2.3.4", last_change_time := some 5 }
        { connectivity := Except.ok (), public_ip := Except.ok "5.6.7.8"
        , http_get := fun _ => HttpResult.response 401 "Unauthorized", now := 7 }).state
      { connectivity := Except.ok (), public_ip := Except.ok "5.6.7.8"
      , http_get := fun _ => HttpResult.response 401 "Unauthorized", now := 7 }).ddns_called =
      true :=
  cycle_ddns_failure_state_unchanged _ _ "5.6.7.8" (Config.mk "u" "p" "d" 300)
    "status: 401 (Unauthorized)" rfl rfl (by decide) rfl rfl

/-- Claim C6: normalization maps every interval strictly below 60 to
exactly 300 (not to 60) and is the identity on every config whose
interval is at least 60. -/
theorem normalize_floor (c : Config) :
    (c.interval < 60 → c.normalize.interval = 300 ∧ c.normalize.interval ≠ 60) ∧
    (60 ≤ c.interval → c.normalize = c) := by
  constructor
  · intro h
    unfold Config.normalize
    simp [h]
  · intro h
    unfold Config.normalize
    simp [Nat.not_lt.mpr h]

/-- Witness for C6: interval 59 becomes 300, interval 60 is untouched. -/
theorem normalize_floor_witness :
    ((Config.mk "u" "p" "d" 59).normalize.interval = 300 ∧
      (Config.mk "u" "p" "d" 59).normalize.interval ≠ 60) ∧
    (Config.mk "u" "p" "d" 60).normalize = Config.mk "u" "p" "d" 60 :=
  ⟨(normalize_floor (Config.mk "u" "p" "d" 59)).1 (by decide),
   (normalize_floor (Config.mk "u" "p" "d" 60)).2 (by decide)⟩

/-- Claim C7: `is_valid` is false iff at least one of user, pass, ddns is
the empty string, and the interval has no effect on validity. -/
theorem is_valid_characterization (c : Config) :
    (c.is_valid = false ↔ (c.user = "" ∨ c.pass = "" ∨ c.ddns = "")) ∧
    (∀ i : Nat, (Config.mk c.user c.pass c.ddns i).is_valid = c.is_valid) := by
  constructor
  · unfold Config.is_valid
    cases hu : c.user.isEmpty <;> cases hp : c.pass.isEmpty <;>
      cases hd : c.ddns.isEmpty <;>
      simp_all [← String.isEmpty_iff]
  · intro i
    rfl

/-- A loader call whose result is not `Success` leaves the state exactly
as it was: only the two accept paths write to the store. -/
theorem load_config_state_of_not_success (readResult : Except String String)
    (parse : String → Except String Config) (path : String) (st : AppState)
    (fl : Bool)
    (h : (load_config readResult parse path st fl).result ≠ ConfigLoadResult.Success) :
    (load_config readResult parse path st fl).state = st := by
  rcases readResult with e | s
  · rfl
  · rcases hp : parse s with e | cfg
    · simp [load_config, hp]
    · by_cases hv : cfg.normalize.is_valid
      · by_cases hf : fl
        · exfalso
          exact h (by simp [load_config, hp, hv, hf])
        · by_cases hch : st.config = some cfg.normalize
          · simp [load_config, hp, hv, hf, hch]
          · exfalso
            exact h (by simp [load_config, hp, hv, hf, hch])
      · rw [Bool.not_eq_true] at hv
        simp [load_config, hp, hv]

/-- Every write the loader performs stores a valid, normalized config;
otherwise the store field is untouched. -/
theorem load_config_config_writes (readResult : Except String String)
    (parse : String → Except String Config) (path : String) (st : AppState)
    (fl : Bool) :
    (load_config readResult parse path st fl).state.config = st.config ∨
    ∃ c, (load_config readResult parse path st fl).state.config = some c ∧
      c.is_valid = true ∧ c.normalize = c := by
  rcases readResult with e | s
  · left; rfl
  · rcases hp : parse s with e | cfg
    · left; simp [load_config, hp]
    · by_cases hv : cfg.normalize.is_valid
      · by_cases hf : fl
        · right
          exact ⟨cfg.normalize, by simp [load_config, hp, hv, hf], hv,
            normalize_idem cfg⟩
        · by_cases hch : st.config = some cfg.normalize
          · left; simp [load_config, hp, hv, hf, hch]
          · right
            exact ⟨cfg.normalize, by simp [load_config, hp, hv, hf, hch], hv,
              normalize_idem cfg⟩
      · rw [Bool.not_eq_true] at hv
        left; simp [load_config, hp, hv]

/-- A check-and-update cycle never touches the config store. -/
theorem cycle_preserves_config (st : AppState) (env : Env) :
    (check_and_update_ip st env).state.config = st.config := by
  unfold check_and_update_ip
  rcases hc : env.connectivity with e | u
  · rfl
  · rcases hp : env.public_ip with e | ip
    · rfl
    · by_cases hcache : st.ip_cache = some ip
      · simp [hcache]
      · rcases hcfg : st.config with _ | cfg
        · simp [hcache, hcfg]
        · rcases hd : update_ddns env cfg ip with e | u2
          · simp [hcache, hcfg, hd]
          · simp [hcache, hcfg, hd]

/-- Claim C4: a failed file read yields `FileError` (Rejected/Unreadable),
a failed parse or an invalid config after normalization yields
`InvalidConfig` (Rejected/InvalidFields), and in each rejection case, and
likewise in the `NoChange` case, the state is exactly the pre-call state. -/
theorem load_config_reject_frame (readResult : Except String String)
    (parse : String → Except String Config) (path : String) (st : AppState)
    (fl : Bool) :
    (∀ e, readResult = Except.error e →
      (load_config readResult parse path st fl).result = ConfigLoadResult.FileError ∧
      (load_config readResult parse path st fl).state = st) ∧
    (∀ s e, readResult = Except.ok s → parse s = Except.error e →
      (load_config readResult parse path st fl).result = ConfigLoadResult.InvalidConfig ∧
      (load_config readResult parse path st fl).state = st) ∧
    (∀ s c, readResult = Except.ok s → parse s = Except.ok c →
      c.normalize.is_valid = false →
      (load_config readResult parse path st fl).result = ConfigLoadResult.InvalidConfig ∧
      (load_config readResult parse path st fl).state = st) ∧
    ((load_config readResult parse path st fl).result = ConfigLoadResult.NoChange →
      (load_config readResult parse path st fl).state = st) := by
  refine ⟨?_, ?_, ?_, ?_⟩
  · rintro e rfl
    exact ⟨rfl, rfl⟩
  · rintro s e rfl hp
    refine ⟨?_, ?_⟩ <;> simp [load_config, hp]
  · rintro s c rfl hp hv
    refine ⟨?_, ?_⟩ <;> simp [load_config, hp, hv]
  · intro h
    apply load_config_state_of_not_success
    rw [h]
    decide

/-- Witness for C4: an unreadable file is rejected as `FileError` and the
pre-call state (holding a config) survives. -/
theorem load_config_reject_frame_witness :
    (load_config (Except.error "permission denied")
      (fun _ => Except.error "unused") "config/config.json"
      (AppState.mk (some (Config.mk "a" "b" "c" 300)) none none) false).result =
      ConfigLoadResult.FileError ∧
    (load_config (Except.error "permission denied")
      (fun _ => Except.error "unused") "config/config.json"
      (AppState.mk (some (Config.mk "a" "b" "c" 300)) none none) false).state =
      AppState.mk (some (Config.mk "a" "b" "c" 300)) none none :=
  (load_config_reject_frame (Except.error "permission denied")
    (fun _ => Except.error "unused") "config/config.json"
    (AppState.mk (some (Config.mk "a" "b" "c" 300)) none none) false).1
    "permission denied" rfl

/-- Counterexample to claim C5 as stated: a loaded config that differs
from the stored one only in `interval` (raw 30 versus stored 300) yields
`NoChange`, not `Success`, because the loader compares the NORMALIZED
config (30 is normalized to 300) against the store. -/
theorem load_config_interval_only_change_counterexample :
    (Config.mk "a" "b" "c" 30).user = (Config.mk "a" "b" "c" 300).user ∧
    (Config.mk "a" "b" "c" 30).pass = (Config.mk "a" "b" "c" 300).pass ∧
    (Config.mk "a" "b" "c" 30).ddns = (Config.mk "a" "b" "c" 300).ddns ∧
    (Config.mk "a" "b" "c" 30).interval ≠ (Config.mk "a" "b" "c" 300).interval ∧
    (load_config (Except.ok "contents")
      (fun _ => Except.ok (Config.mk "a" "b" "c" 30)) "config/config.json"
      (AppState.mk (some (Config.mk "a" "b" "c" 300)) none none) false).result =
      ConfigLoadResult.NoChange ∧
    ConfigLoadResult.NoChange ≠ ConfigLoadResult.Success := by
  refine ⟨rfl, rfl, rfl, by decide, ?_, by decide⟩
  rfl

/-- Claim C5 (amended): on a non-first load of a readable, parseable,
valid config, the `Success`-versus-`NoChange` outcome is decided solely by
structural equality of the NORMALIZED loaded config against the stored
value: equal yields `NoChange` with the state (including interval) left
identical, different (in particular differing only in interval) yields
`Success` and replaces the stored value. -/
theorem load_config_change_detection (s : String)
    (parse : String → Except String Config) (path : String) (st : AppState)
    (cfg : Config)
    (hp : parse s = Except.ok cfg)
    (hv : cfg.normalize.is_valid = true) :
    ((load_config (Except.ok s) parse path st false).result =
      ConfigLoadResult.NoChange ↔ st.config = some cfg.normalize) ∧
    (st.config = some cfg.normalize →
      (load_config (Except.ok s) parse path st false).state = st) ∧
    (st.config ≠ some cfg.normalize →
      (load_config (Except.ok s) parse path st false).result =
        ConfigLoadResult.Success ∧
      (load_config (Except.ok s) parse path st false).state =
        { st with config := some cfg.normalize }) := by
  by_cases hch : st.config = some cfg.normalize
  · refine ⟨?_, ?_, ?_⟩ <;> simp [load_config, hp, hv, hch]
  · refine ⟨?_, ?_, ?_⟩ <;> simp [load_config, hp, hv, hch]

/-- Witness for C5 (amended): stored interval 300 versus a reload whose
normalized interval is 600 — only the interval differs, outcome `Success`
and the store is replaced. -/
theorem load_config_change_detection_witness :
    ((load_config (Except.ok "contents")
      (fun _ => Except.ok (Config.mk "a" "b" "c" 600)) "config/config.json"
      (AppState.mk (some (Config.mk "a" "b" "c" 300)) none none) false).result =
      ConfigLoadResult.NoChange ↔
      (AppState.mk (some (Config.mk "a" "b" "c" 300)) none none).config =
        some (Config.mk "a" "b" "c" 600).normalize) ∧
    ((AppState.mk (some (Config.mk "a" "b" "c" 300)) none none).config =
        some (Config.mk "a" "b" "c" 600).normalize →
      (load_config (Except.ok "contents")
        (fun _ => Except.ok (Config.mk "a" "b" "c" 600)) "config/config.json"
        (AppState.mk (some (Config.mk "a" "b" "c" 300)) none none) false).state =
        AppState.mk (some (Config.mk "a" "b" "c" 300)) none none) ∧
    ((AppState.mk (some (Config.mk "a" "b" "c" 300)) none none).config ≠
        some (Config.mk "a" "b" "c" 600).normalize →
      (load_config (Except.ok "contents")
        (fun _ => Except.ok (Config.mk "a" "b" "c" 600)) "config/config.json"
        (AppState.mk (some (Config.mk "a" "b" "c" 300)) none none) false).result =
        ConfigLoadResult.Success ∧
      (load_config (Except.ok "contents")
        (fun _ => Except.ok (Config.mk "a" "b" "c" 600)) "config/config.json"
        (AppState.mk (some (Config.mk "a" "b" "c" 300)) none none) false).state =
        { AppState.mk (some (Config.mk "a" "b" "c" 300)) none none with
            config := some (Config.mk "a" "b" "c" 600).normalize }) :=
  load_config_change_detection "contents"
    (fun _ => Except.ok (Config.mk "a" "b" "c" 600)) "config/config.json"
    (AppState.mk (some (Config.mk "a" "b" "c" 300)) none none)
    (Config.mk "a" "b" "c" 600) rfl rfl

/-- Claim C8: if the first-startup load does not return `Success`, the IP
checker task is never spawned over the whole process lifetime — whatever
load results (including `Success` on a corrected config) the watcher later
processes — while the config watcher task is always spawned. -/
theorem ip_checker_never_spawned (firstLoad : ConfigLoadResult)
    (reloads : List ConfigLoadResult)
    (h : firstLoad ≠ ConfigLoadResult.Success) :
    SpawnedTask.ip_checker ∉ all_spawned firstLoad reloads ∧
    SpawnedTask.config_watcher ∈ all_spawned firstLoad reloads := by
  constructor
  · intro hmem
    rw [all_spawned, List.mem_append] at hmem
    rcases hmem with hm | hm
    · rw [main_spawns, if_neg h] at hm
      simp at hm
    · rw [List.mem_flatten] at hm
      obtain ⟨l, hl, hml⟩ := hm
      rw [List.mem_map] at hl
      obtain ⟨r, _, rfl⟩ := hl
      rw [watch_event_spawns] at hml
      by_cases hr : r = ConfigLoadResult.Success
      · rw [if_pos hr] at hml
        simp at hml
      · rw [if_neg hr] at hml
        simp at hml
  · rw [all_spawned, List.mem_append]
    left
    rw [main_spawns]
    simp

/-- Witness for C8: first load fails with `FileError`; a later watcher
reload succeeds, yet the spawned tasks never include the IP checker. -/
theorem ip_checker_never_spawned_witness :
    SpawnedTask.ip_checker ∉
      all_spawned ConfigLoadResult.FileError
        [ConfigLoadResult.InvalidConfig, ConfigLoadResult.Success] ∧
    SpawnedTask.config_watcher ∈
      all_spawned ConfigLoadResult.FileError
        [ConfigLoadResult.InvalidConfig, ConfigLoadResult.Success] :=
  ip_checker_never_spawned ConfigLoadResult.FileError
    [ConfigLoadResult.InvalidConfig, ConfigLoadResult.Success] (by decide)

/-- Claim C9: two invalid configs that agree on user and ddns and agree on
whether pass is empty produce byte-identical loader diagnostics — the
diagnostic reveals only set/unset for the password, never its value. -/
theorem loader_diagnostic_hides_password (s1 s2 path1 path2 : String)
    (parse1 parse2 : String → Except String Config)
    (st1 st2 : AppState) (fl1 fl2 : Bool) (c1 c2 : Config)
    (h1 : parse1 s1 = Except.ok c1) (h2 : parse2 s2 = Except.ok c2)
    (hinv : c1.normalize.is_valid = false)
    (hu : c1.user = c2.user) (hd : c1.ddns = c2.ddns)
    (hpe : c1.pass.isEmpty = c2.pass.isEmpty) :
    (load_config (Except.ok s1) parse1 path1 st1 fl1).result =
      ConfigLoadResult.InvalidConfig ∧
    (load_config (Except.ok s2) parse2 path2 st2 fl2).result =
      ConfigLoadResult.InvalidConfig ∧
    (load_config (Except.ok s1) parse1 path1 st1 fl1).logs =
      (load_config (Except.ok s2) parse2 path2 st2 fl2).logs := by
  have hv2 : c2.normalize.is_valid = false := by
    rw [normalize_is_valid] at hinv ⊢
    unfold Config.is_valid at hinv ⊢
    rw [hu, hpe, hd] at hinv
    exact hinv
  have hdiag : invalid_config_diagnostic c1.normalize =
      invalid_config_diagnostic c2.normalize := by
    unfold invalid_config_diagnostic
    simp only [normalize_user, normalize_pass, normalize_ddns]
    rw [hu, hd, hpe]
  refine ⟨?_, ?_, ?_⟩ <;> simp [load_config, h1, h2, hinv, hv2, hdiag]

/-- Witness for C9: two configs with empty user, same ddns, and two
different non-empty passwords produce identical diagnostics. -/
theorem loader_diagnostic_hides_password_witness :
    (load_config (Except.ok "c1") (fun _ => Except.ok (Config.mk "" "secretA" "host" 300))
      "p1" AppState.new true).result = ConfigLoadResult.InvalidConfig ∧
    (load_config (Except.ok "c2") (fun _ => Except.ok (Config.mk "" "hunter2" "host" 300))
      "p2" AppState.new false).result = ConfigLoadResult.InvalidConfig ∧
    (load_config (Except.ok "c1") (fun _ => Except.ok (Config.mk "" "secretA" "host" 300))
      "p1" AppState.new true).logs =
    (load_config (Except.ok "c2") (fun _ => Except.ok (Config.mk "" "hunter2" "host" 300))
      "p2" AppState.new false).logs :=
  loader_diagnostic_hides_password "c1" "c2" "p1" "p2"
    (fun _ => Except.ok (Config.mk "" "secretA" "host" 300))
    (fun _ => Except.ok (Config.mk "" "hunter2" "host" 300))
    AppState.new AppState.new true false
    (Config.mk "" "secretA" "host" 300) (Config.mk "" "hunter2" "host" 300)
    rfl rfl rfl rfl rfl rfl

/-- Claim C10: the config store starts out `none`; every loader write
stores a complete, valid, normalized config and every rejected/unchanged
load leaves the value in place, so the store is monotone from `none` to
`some`; a check-and-update cycle never touches it. -/
theorem config_store_monotone (readResult : Except String String)
    (parse : String → Except String Config) (path : String) (st : AppState)
    (fl : Bool) (env : Env) :
    AppState.new.config = none ∧
    ((load_config readResult parse path st fl).state.config = st.config ∨
      ∃ c, (load_config readResult parse path st fl).state.config = some c ∧
        c.is_valid = true ∧ c.normalize = c) ∧
    (st.config ≠ none → (load_config readResult parse path st fl).state.config ≠ none) ∧
    (check_and_update_ip st env).state.config = st.config := by
  refine ⟨rfl, load_config_config_writes readResult parse path st fl, ?_,
    cycle_preserves_config st env⟩
  intro hne
  rcases load_config_config_writes readResult parse path st fl with h | ⟨c, hc2, _, _⟩
  · rw [h]
    exact hne
  · rw [hc2]
    simp

/-- Witness for C10: a rejected reload of an unparseable file on a store
holding a config leaves it `some`. -/
theorem config_store_monotone_witness :
    AppState.new.config = none ∧
    (load_config (Except.ok "not json") (fun _ => Except.error "expected value")
      "config/config.json"
      (AppState.mk (some (Config.mk "a" "b" "c" 300)) none none) false).state.config ≠
      none :=
  ⟨(config_store_monotone (Except.ok "not json") (fun _ => Except.error "expected value")
      "config/config.json"
      (AppState.mk (some (Config.mk "a" "b" "c" 300)) none none) false
      { connectivity := Except.ok (), public_ip := Except.ok "1.2.3.4"
      , http_get := fun _ => HttpResult.response 200 "OK", now := 0 }).1,
   (config_store_monotone (Except.ok "not json") (fun _ => Except.error "expected value")
      "config/config.json"
      (AppState.mk (some (Config.mk "a" "b" "c" 300)) none none) false
      { connectivity := Except.ok (), public_ip := Except.ok "1.2.3.4"
      , http_get := fun _ => HttpResult.response 200 "OK", now := 0 }).2.2.1
      (by decide)⟩

end DdnsUpdater
